import Mathlib

/-!
Verification of the HTTP access layer of the `rust-canvas-mcp` server.

The development shallowly embeds the Rust sources:
* `src/config.rs`  — `CanvasConfig` (base-URL normalization, environment loading),
* `src/error.rs`   — the `CanvasError` taxonomy,
* `src/client.rs`  — `CanvasClient` (construction, URL building, response handling,
                     error classification),
* `src/server.rs`  — `CanvasServer::get_info` (MCP handshake).

Rust strings are Lean `String`s (Rust `chars()` = Lean `String.data`, both
sequences of Unicode scalar values).  Network responses are modelled by their
observable content: an HTTP status code and the result of reading the body as
text (`Except Unit String`, where `.error ()` is a failed body read).  JSON
parsing by `serde_json::from_str::<serde_json::Value>` is modelled by an
executable JSON parser over the standard JSON grammar.
-/

namespace CanvasMcp

/-! ### String helpers modelling Rust `str` methods -/

/-- Rust `str::ends_with(pat)`: `pat` is a suffix of the string.  (For valid
UTF-8, byte-level suffixes coincide with character-level suffixes because a
pattern never starts with a continuation byte.) -/
def ends_with (s pat : String) : Bool :=
  pat.data.isSuffixOf s.data

/-- Rust `str::starts_with(pat)`: `pat` is a prefix of the string. -/
def starts_with (s pat : String) : Bool :=
  pat.data.isPrefixOf s.data

/-- Rust `str::trim_end_matches('/')`: remove every trailing `/`. -/
def trim_end_slashes (s : String) : String :=
  String.mk ((s.data.reverse.dropWhile (fun c => c == '/')).reverse)

/-- Rust `str::trim_start_matches('/')`: remove every leading `/`. -/
def trim_start_slashes (s : String) : String :=
  String.mk (s.data.dropWhile (fun c => c == '/'))

/-- Rust `text.chars().take(n).collect::<String>()`. -/
def take_chars (n : Nat) (s : String) : String :=
  String.mk (s.data.take n)

/-! ### JSON values and a parser modelling `serde_json::from_str::<Value>`

`serde_json` whitespace is space, tab, newline, carriage return; objects keep
one binding per key (a repeated key overwrites the earlier one); numbers are
kept as their lexeme since only `as_str` (string extraction) matters to the
client code.  `\u` escapes of surrogate code points are rejected (the client
never produces them). -/

inductive Json where
  | null
  | bool (b : Bool)
  | num (lexeme : String)
  | str (s : String)
  | arr (elems : List Json)
  | obj (fields : List (String × Json))
deriving Repr

def isJsonWs (c : Char) : Bool :=
  c == ' ' || c == '\t' || c == '\n' || c == '\r'

def skip_ws (cs : List Char) : List Char :=
  cs.dropWhile isJsonWs

def isJsonHexDigit (c : Char) : Bool :=
  ('0' ≤ c && c ≤ '9') || ('a' ≤ c && c ≤ 'f') || ('A' ≤ c && c ≤ 'F')

def hexDigitVal (c : Char) : Nat :=
  if '0' ≤ c && c ≤ '9' then c.toNat - '0'.toNat
  else if 'a' ≤ c && c ≤ 'f' then c.toNat - 'a'.toNat + 10
  else c.toNat - 'A'.toNat + 10

/-- Parse the body of a JSON string literal (the opening quote already
consumed); returns the decoded characters and the remainder after the closing
quote. -/
def parse_string_body : List Char → Option (List Char × List Char)
  | [] => none
  | '"' :: rest => some ([], rest)
  | '\\' :: 'n' :: rest =>
      (parse_string_body rest).map (fun p => ('\n' :: p.1, p.2))
  | '\\' :: 't' :: rest =>
      (parse_string_body rest).map (fun p => ('\t' :: p.1, p.2))
  | '\\' :: 'r' :: rest =>
      (parse_string_body rest).map (fun p => ('\r' :: p.1, p.2))
  | '\\' :: 'b' :: rest =>
      (parse_string_body rest).map (fun p => ('\x08' :: p.1, p.2))
  | '\\' :: 'f' :: rest =>
      (parse_string_body rest).map (fun p => ('\x0c' :: p.1, p.2))
  | '\\' :: '"' :: rest =>
      (parse_string_body rest).map (fun p => ('"' :: p.1, p.2))
  | '\\' :: '\\' :: rest =>
      (parse_string_body rest).map (fun p => ('\\' :: p.1, p.2))
  | '\\' :: '/' :: rest =>
      (parse_string_body rest).map (fun p => ('/' :: p.1, p.2))
  | '\\' :: 'u' :: a :: b :: c :: d :: rest =>
      if isJsonHexDigit a && isJsonHexDigit b && isJsonHexDigit c && isJsonHexDigit d then
        let n := ((hexDigitVal a * 16 + hexDigitVal b) * 16 + hexDigitVal c) * 16 + hexDigitVal d
        if 0xd800 ≤ n && n ≤ 0xdfff then none
        else (parse_string_body rest).map (fun p => (Char.ofNat n :: p.1, p.2))
      else none
  | '\\' :: _ => none
  | c :: rest =>
      if c.toNat < 32 then none
      else (parse_string_body rest).map (fun p => (c :: p.1, p.2))

/-- Integer part of a JSON number: `0`, or a nonzero digit followed by digits. -/
def parse_int_part : List Char → Option (List Char × List Char)
  | [] => none
  | '0' :: rest => some (['0'], rest)
  | c :: rest =>
      if c.isDigit then some (c :: rest.takeWhile Char.isDigit, rest.dropWhile Char.isDigit)
      else none

/-- Optional fraction part of a JSON number. -/
def parse_frac_part (cs : List Char) : Option (List Char × List Char) :=
  match cs with
  | '.' :: rest =>
      let ds := rest.takeWhile Char.isDigit
      if ds.isEmpty then none else some ('.' :: ds, rest.dropWhile Char.isDigit)
  | _ => some ([], cs)

/-- Optional exponent part of a JSON number. -/
def parse_exp_part (cs : List Char) : Option (List Char × List Char) :=
  match cs with
  | c :: rest =>
      if c == 'e' || c == 'E' then
        let sr : List Char × List Char :=
          match rest with
          | s :: r => if s == '+' || s == '-' then ([s], r) else ([], rest)
          | [] => ([], rest)
        let ds := sr.2.takeWhile Char.isDigit
        if ds.isEmpty then none
        else some (c :: sr.1 ++ ds, sr.2.dropWhile Char.isDigit)
      else some ([], cs)
  | [] => some ([], cs)

/-- A complete JSON number lexeme. -/
def parse_number (cs : List Char) : Option (List Char × List Char) :=
  let sc : List Char × List Char :=
    match cs with
    | '-' :: r => (['-'], r)
    | _ => ([], cs)
  match parse_int_part sc.2 with
  | none => none
  | some (ip, cs2) =>
    match parse_frac_part cs2 with
    | none => none
    | some (fp, cs3) =>
      match parse_exp_part cs3 with
      | none => none
      | some (ep, cs4) => some (sc.1 ++ ip ++ fp ++ ep, cs4)

/-- Insert a key/value binding, overwriting an existing binding for the key
(serde map semantics: the last occurrence of a duplicate key wins). -/
def insert_field : List (String × Json) → String → Json → List (String × Json)
  | [], k, v => [(k, v)]
  | (k0, v0) :: rest, k, v =>
      if k0 = k then (k, v) :: rest else (k0, v0) :: insert_field rest k v

def lookup_field : List (String × Json) → String → Option Json
  | [], _ => none
  | (k0, v0) :: rest, k => if k0 = k then some v0 else lookup_field rest k

mutual

/-- Parse one JSON value at the head of `cs` (leading whitespace already
skipped). -/
def parse_value (fuel : Nat) (cs : List Char) : Option (Json × List Char) :=
  match fuel with
  | 0 => none
  | fuel + 1 =>
    match cs with
    | 'n' :: 'u' :: 'l' :: 'l' :: rest => some (.null, rest)
    | 't' :: 'r' :: 'u' :: 'e' :: rest => some (.bool true, rest)
    | 'f' :: 'a' :: 'l' :: 's' :: 'e' :: rest => some (.bool false, rest)
    | '"' :: rest =>
        (parse_string_body rest).map (fun p => (.str (String.mk p.1), p.2))
    | '[' :: rest => parse_array fuel (skip_ws rest)
    | '\x7b' :: rest => parse_object fuel (skip_ws rest)
    | _ => (parse_number cs).map (fun p => (.num (String.mk p.1), p.2))

/-- Parse an array after `[`, whitespace skipped. -/
def parse_array (fuel : Nat) (cs : List Char) : Option (Json × List Char) :=
  match fuel with
  | 0 => none
  | fuel + 1 =>
    match cs with
    | ']' :: rest => some (.arr [], rest)
    | _ => parse_array_items fuel cs []

/-- Parse the comma-separated items of a non-empty array. -/
def parse_array_items (fuel : Nat) (cs : List Char) (acc : List Json) :
    Option (Json × List Char) :=
  match fuel with
  | 0 => none
  | fuel + 1 =>
    match parse_value fuel (skip_ws cs) with
    | none => none
    | some (v, rest) =>
      match skip_ws rest with
      | ',' :: rest2 => parse_array_items fuel rest2 (v :: acc)
      | ']' :: rest2 => some (.arr (v :: acc).reverse, rest2)
      | _ => none

/-- Parse an object after the opening brace, whitespace skipped. -/
def parse_object (fuel : Nat) (cs : List Char) : Option (Json × List Char) :=
  match fuel with
  | 0 => none
  | fuel + 1 =>
    match cs with
    | '\x7d' :: rest => some (.obj [], rest)
    | _ => parse_object_items fuel cs []

/-- Parse the comma-separated `"key": value` members of a non-empty object
(whitespace before the key already skipped). -/
def parse_object_items (fuel : Nat) (cs : List Char) (acc : List (String × Json)) :
    Option (Json × List Char) :=
  match fuel with
  | 0 => none
  | fuel + 1 =>
    match cs with
    | '"' :: rest =>
      match parse_string_body rest with
      | none => none
      | some (key, rest2) =>
        match skip_ws rest2 with
        | ':' :: rest3 =>
          match parse_value fuel (skip_ws rest3) with
          | none => none
          | some (v, rest4) =>
            let acc2 := insert_field acc (String.mk key) v
            match skip_ws rest4 with
            | ',' :: rest5 => parse_object_items fuel (skip_ws rest5) acc2
            | '\x7d' :: rest5 => some (.obj acc2, rest5)
            | _ => none
        | _ => none
    | _ => none

end

/-- `serde_json::from_str::<serde_json::Value>`: one JSON value surrounded by
optional whitespace, with nothing left over. -/
def parse_json (s : String) : Option Json :=
  match parse_value (3 * s.data.length + 3) (skip_ws s.data) with
  | some (j, rest) => if (skip_ws rest).isEmpty then some j else none
  | none => none

/-- `serde_json::Value::get(key)`: field lookup, `none` on non-objects. -/
def Json.get : Json → String → Option Json
  | .obj fields, key => lookup_field fields key
  | _, _ => none

/-- `serde_json::Value::as_str`: `some` exactly on JSON strings. -/
def Json.as_str : Json → Option String
  | .str s => some s
  | _ => none

/-! ### `src/error.rs` — the error taxonomy -/

/-- `CanvasError` from `src/error.rs`.  `Http` and `Json` wrap foreign error
values (`reqwest::Error`, `serde_json::Error`); only their message is
modelled. -/
inductive CanvasError where
  | Config (msg : String)
  | Http (msg : String)
  | Json (msg : String)
  | Api (status : Nat) (message : String)
  | NotFound (msg : String)
  | Auth (msg : String)
  | RateLimit (msg : String)
  | InvalidParameter (msg : String)
  | Internal (msg : String)
deriving Repr, DecidableEq

/-- The tag (discriminant) of a `CanvasError`, together with the structured
status an `Api` error carries. -/
inductive ErrorKind where
  | config
  | http
  | json
  | api (status : Nat)
  | notFound
  | auth
  | rateLimit
  | invalidParameter
  | internal
deriving Repr, DecidableEq

def CanvasError.kind : CanvasError → ErrorKind
  | .Config _ => .config
  | .Http _ => .http
  | .Json _ => .json
  | .Api s _ => .api s
  | .NotFound _ => .notFound
  | .Auth _ => .auth
  | .RateLimit _ => .rateLimit
  | .InvalidParameter _ => .invalidParameter
  | .Internal _ => .internal

/-! ### `src/config.rs` — configuration -/

/-- `CanvasConfig` from `src/config.rs`. -/
structure CanvasConfig where
  api_token : String
  api_url : String
  institution_name : Option String
  timezone : Option String
  enable_anonymization : Bool
  debug : Bool
deriving Repr, DecidableEq

/-- The base-URL normalization step shared by `CanvasConfig::new` and
`CanvasConfig::from_env` (`src/config.rs`, lines 47-53 and 81-87): ensure the
URL ends with `/api/v1`. -/
def normalize_api_url (api_url : String) : String :=
  if ends_with api_url "/api/v1" then api_url
  else if ends_with api_url "/" then api_url ++ "api/v1"
  else api_url ++ "/api/v1"

/-- `CanvasConfig::new` (`src/config.rs`, lines 79-97). -/
def CanvasConfig.new (api_token api_url : String) : CanvasConfig :=
  { api_token := api_token
    api_url := normalize_api_url api_url
    institution_name := none
    timezone := none
    enable_anonymization := false
    debug := false }

/-- Rust `"…".parse::<bool>()`: only `"true"` and `"false"` succeed. -/
def parse_bool (s : String) : Option Bool :=
  if s = "true" then some true else if s = "false" then some false else none

/-- `CanvasConfig::from_env` (`src/config.rs`, lines 28-76).  The process
environment (after `dotenvy` has merged any `.env` file) is modelled as a
partial map from variable names to values. -/
def CanvasConfig.from_env (env : String → Option String) :
    Except CanvasError CanvasConfig :=
  match env "CANVAS_API_TOKEN" with
  | none => .error (.Config "CANVAS_API_TOKEN environment variable is required")
  | some api_token =>
    match env "CANVAS_API_URL" with
    | none => .error (.Config "CANVAS_API_URL environment variable is required")
    | some api_url =>
      if !(starts_with api_url "http://" || starts_with api_url "https://") then
        .error (.Config "CANVAS_API_URL must start with http:// or https://")
      else
        .ok { api_token := api_token
              api_url := normalize_api_url api_url
              institution_name := env "INSTITUTION_NAME"
              timezone := env "TIMEZONE"
              enable_anonymization :=
                (parse_bool ((env "ENABLE_DATA_ANONYMIZATION").getD "false")).getD false
              debug := (parse_bool ((env "DEBUG").getD "false")).getD false }

/-! ### `src/client.rs` — HTTP client -/

/-- Validity of an HTTP header value, from the `http` crate
(`HeaderValue::from_str`): every byte must be horizontal tab, or in
`32..=255` excluding DEL (127).  Since every byte of a multi-byte UTF-8
character is ≥ 128 (hence valid), this is equivalent to the per-character
check below. -/
def header_value_is_valid (s : String) : Bool :=
  s.data.all (fun c => c == '\t' || (decide (32 ≤ c.toNat) && decide (c.toNat ≠ 127)))

/-- The observable state of a constructed `CanvasClient`
(`src/client.rs`, lines 10-13): its configuration and the default headers
computed once at construction and attached to every outbound request. -/
structure CanvasClientModel where
  config : CanvasConfig
  auth_header : String
  user_agent : String
deriving Repr, DecidableEq

/-- `CanvasClient::new` (`src/client.rs`, lines 17-45).  The only
input-dependent failure is `HeaderValue::from_str` on the authorization
value; `Client::builder().build()` failure depends on the runtime
environment (TLS initialisation), not on the configuration, and is modelled
as succeeding. -/
def CanvasClient.new (config : CanvasConfig) : Except CanvasError CanvasClientModel :=
  let auth_value := "Bearer " ++ config.api_token
  if header_value_is_valid auth_value then
    .ok { config := config
          auth_header := auth_value
          user_agent := "rust-canvas-mcp/0.1.0" }
  else
    .error (.Config ("Invalid API token: " ++ "failed to parse header value"))

/-- `CanvasClient::build_url` (`src/client.rs`, lines 53-57). -/
def build_url (config : CanvasConfig) (path : String) : String :=
  trim_end_slashes config.api_url ++ "/" ++ trim_start_slashes path

/-- An HTTP response as the client observes it: status code and the result of
reading the body as text (`.error ()` models a failed `Response::text()`). -/
structure HttpResponse where
  status : Nat
  body : Except Unit String
deriving Repr

/-- `StatusCode::is_success` from the `http` crate: `200..=299`. -/
def is_success (status : Nat) : Bool :=
  decide (200 ≤ status) && decide (status ≤ 299)

/-- `StatusCode::canonical_reason` from the `http` crate (the IANA reason
phrases). -/
def canonical_reason (status : Nat) : Option String :=
  match status with
  | 100 => some "Continue"
  | 101 => some "Switching Protocols"
  | 102 => some "Processing"
  | 200 => some "OK"
  | 201 => some "Created"
  | 202 => some "Accepted"
  | 203 => some "Non Authoritative Information"
  | 204 => some "No Content"
  | 205 => some "Reset Content"
  | 206 => some "Partial Content"
  | 207 => some "Multi-Status"
  | 208 => some "Already Reported"
  | 226 => some "IM Used"
  | 300 => some "Multiple Choices"
  | 301 => some "Moved Permanently"
  | 302 => some "Found"
  | 303 => some "See Other"
  | 304 => some "Not Modified"
  | 305 => some "Use Proxy"
  | 307 => some "Temporary Redirect"
  | 308 => some "Permanent Redirect"
  | 400 => some "Bad Request"
  | 401 => some "Unauthorized"
  | 402 => some "Payment Required"
  | 403 => some "Forbidden"
  | 404 => some "Not Found"
  | 405 => some "Method Not Allowed"
  | 406 => some "Not Acceptable"
  | 407 => some "Proxy Authentication Required"
  | 408 => some "Request Timeout"
  | 409 => some "Conflict"
  | 410 => some "Gone"
  | 411 => some "Length Required"
  | 412 => some "Precondition Failed"
  | 413 => some "Payload Too Large"
  | 414 => some "URI Too Long"
  | 415 => some "Unsupported Media Type"
  | 416 => some "Range Not Satisfiable"
  | 417 => some "Expectation Failed"
  | 418 => some "I\x27m a teapot"
  | 421 => some "Misdirected Request"
  | 422 => some "Unprocessable Entity"
  | 423 => some "Locked"
  | 424 => some "Failed Dependency"
  | 426 => some "Upgrade Required"
  | 428 => some "Precondition Required"
  | 429 => some "Too Many Requests"
  | 431 => some "Request Header Fields Too Large"
  | 451 => some "Unavailable For Legal Reasons"
  | 500 => some "Internal Server Error"
  | 501 => some "Not Implemented"
  | 502 => some "Bad Gateway"
  | 503 => some "Service Unavailable"
  | 504 => some "Gateway Timeout"
  | 505 => some "HTTP Version Not Supported"
  | 506 => some "Variant Also Negotiates"
  | 507 => some "Insufficient Storage"
  | 508 => some "Loop Detected"
  | 510 => some "Not Extended"
  | 511 => some "Network Authentication Required"
  | _ => none

/-- The message-extraction part of `CanvasClient::error_from_response`
(`src/client.rs`, lines 131-148): on a readable body, try JSON and the
`message`/`error` fields; on an unreadable body, fall back to the status's
canonical reason phrase. -/
def extract_message (status : Nat) (bodyResult : Except Unit String) : String :=
  match bodyResult with
  | .ok body =>
    match parse_json body with
    | some json =>
        ((((json.get "message").orElse (fun _ => json.get "error")).bind
          Json.as_str).getD body)
    | none => body
  | .error _ => (canonical_reason status).getD "Unknown error"

/-- The status classification of `CanvasClient::error_from_response`
(`src/client.rs`, lines 150-158).  The Rust `match` on disjoint
`StatusCode` constants is rendered as the equivalent equality chain. -/
def error_from_response (status : Nat) (bodyResult : Except Unit String) :
    CanvasError :=
  let message := extract_message status bodyResult
  if status = 401 then .Auth message
  else if status = 403 then .Auth ("Forbidden: " ++ message)
  else if status = 404 then .NotFound message
  else if status = 429 then .RateLimit ("Rate limit exceeded: " ++ message)
  else .Api status message

/-- `CanvasClient::request` (`src/client.rs`, lines 96-105): raw responses
pass through on success and are classified otherwise. -/
def request (resp : HttpResponse) : Except CanvasError HttpResponse :=
  if is_success resp.status then .ok resp
  else .error (error_from_response resp.status resp.body)

/-- `CanvasClient::handle_response` (`src/client.rs`, lines 108-123), shared
by `get`/`post`/`put`/`delete`.  `decode` is `serde_json::from_str::<T>` for
the caller's expected type `T`; a failed body read on the success path
propagates as an `Http` error via the `?` operator. -/
def handle_response {α : Type} (decode : String → Except String α)
    (resp : HttpResponse) : Except CanvasError α :=
  if is_success resp.status then
    match resp.body with
    | .ok text =>
      match decode text with
      | .ok value => .ok value
      | .error e =>
          .error (.Internal ("Failed to parse Canvas API response: " ++ e ++
            ". Response: " ++ take_chars 200 text))
    | .error _ => .error (.Http "body read failed")
  else .error (error_from_response resp.status resp.body)

/-! ### `src/server.rs` — MCP handshake -/

structure Implementation where
  name : String
  version : String
deriving Repr, DecidableEq

/-- `ServerCapabilities::builder().enable_tools().build()` is modelled by its
observable content: whether tool support is declared. -/
structure ServerCapabilities where
  tools_enabled : Bool
deriving Repr, DecidableEq

structure ServerInfo where
  protocol_version : String
  capabilities : ServerCapabilities
  server_info : Implementation
  instructions : Option String
deriving Repr, DecidableEq

/-- `env!("CARGO_PKG_VERSION")`: the crate version compiled into the binary
(matching the `rust-canvas-mcp/0.1.0` user-agent string in
`src/client.rs`). -/
def CARGO_PKG_VERSION : String := "0.1.0"

/-- `CanvasServer::get_info` (`src/server.rs`, lines 33-55).  The `format!`
string uses Rust line continuations, which strip the newline and the leading
whitespace of the following line. -/
def get_info (config : CanvasConfig) : ServerInfo :=
  { protocol_version := "2024-11-05"
    capabilities := { tools_enabled := true }
    server_info := { name := "rust-canvas-mcp", version := CARGO_PKG_VERSION }
    instructions := some
      ("Canvas LMS MCP Server\nInstitution: " ++
        (config.institution_name.getD "Not specified") ++
        "\nAPI URL: " ++ config.api_url ++
        "\n\nThis server provides tools for interacting with Canvas LMS.\n" ++
        "Core tools will be implemented in Phase 3.") }

/-! ### Helper lemmas -/

theorem ends_with_append (s t : String) : ends_with (s ++ t) t = true := by
  unfold ends_with
  rw [String.data_append]
  exact List.isSuffixOf_iff_suffix.mpr (List.suffix_append _ _)

theorem starts_with_append (s t p : String) (h : starts_with s p = true) :
    starts_with (s ++ t) p = true := by
  unfold starts_with at h ⊢
  rw [String.data_append]
  rw [List.isPrefixOf_iff_prefix] at h ⊢
  exact h.trans (List.prefix_append _ _)

/-- Every output of `normalize_api_url` ends with `/api/v1`. -/
theorem normalize_api_url_ends (u : String) :
    ends_with (normalize_api_url u) "/api/v1" = true := by
  unfold normalize_api_url
  split_ifs with h1 h2
  · exact h1
  · unfold ends_with at h2 ⊢
    rw [String.data_append]
    rw [List.isSuffixOf_iff_suffix] at h2 ⊢
    obtain ⟨w, hw⟩ := h2
    refine ⟨w, ?_⟩
    have hslash : ("/" : String).data = ['/'] := rfl
    have hseg : ("/api/v1" : String).data = '/' :: ("api/v1" : String).data := rfl
    rw [hslash] at hw
    rw [hseg, ← hw, List.append_assoc]
    rfl
  · exact ends_with_append _ _

/-- `normalize_api_url` fixes any URL that already ends with `/api/v1`. -/
theorem normalize_api_url_of_ends (v : String)
    (h : ends_with v "/api/v1" = true) : normalize_api_url v = v := by
  unfold normalize_api_url
  rw [if_pos h]

/-- `normalize_api_url` only appends, so it preserves prefixes of its input. -/
theorem normalize_api_url_starts (u p : String) (h : starts_with u p = true) :
    starts_with (normalize_api_url u) p = true := by
  unfold normalize_api_url
  split_ifs with h1 h2
  · exact h
  · exact starts_with_append _ _ _ h
  · exact starts_with_append _ _ _ h

theorem trim_start_slashes_slash (p : String) :
    trim_start_slashes ("/" ++ p) = trim_start_slashes p := by
  unfold trim_start_slashes
  rw [String.data_append]
  have hslash : ("/" : String).data = ['/'] := rfl
  rw [hslash]
  simp [List.dropWhile]

theorem trim_end_slashes_slash (u : String) :
    trim_end_slashes (u ++ "/") = trim_end_slashes u := by
  unfold trim_end_slashes
  rw [String.data_append]
  have hslash : ("/" : String).data = ['/'] := rfl
  rw [hslash, List.reverse_append]
  simp [List.dropWhile]

/-- A configuration record holding the given base URL verbatim, as
`CanvasClient` observes it through `self.config.api_url`. -/
def config_with_url (api_url : String) : CanvasConfig :=
  { api_token := "t"
    api_url := api_url
    institution_name := none
    timezone := none
    enable_anonymization := false
    debug := false }

/-! ### Claim theorems -/

/-- C4 counterexample: `build_url` trims only leading slashes from the path,
so `buildUrl("courses/")` on base `https://x.edu/api/v1` keeps the trailing
slash and does not yield `https://x.edu/api/v1/courses`. -/
theorem build_url_trailing_slash_counterexample :
    build_url (config_with_url "https://x.edu/api/v1") "courses/"
      = "https://x.edu/api/v1/courses/"
    ∧ build_url (config_with_url "https://x.edu/api/v1") "courses/"
      ≠ "https://x.edu/api/v1/courses" := by
  constructor <;> decide

/-- C4 (amended): `build_url` joins the configured base URL and the path with
exactly one `/`, tolerating a leading `/` on the path and a trailing `/` on
the base URL: `buildUrl("/courses")` and `buildUrl("courses")` on base
`https://x.edu/api/v1` (with or without trailing slash) yield
`https://x.edu/api/v1/courses`, while `buildUrl("courses/")` yields
`https://x.edu/api/v1/courses/` — a trailing slash on the path is preserved.
In general, a trailing `/` on the base and a leading `/` on the path are
discarded before joining. -/
theorem build_url_join :
    build_url (config_with_url "https://x.edu/api/v1") "/courses"
      = "https://x.edu/api/v1/courses"
    ∧ build_url (config_with_url "https://x.edu/api/v1") "courses"
      = "https://x.edu/api/v1/courses"
    ∧ build_url (config_with_url "https://x.edu/api/v1/") "/courses"
      = "https://x.edu/api/v1/courses"
    ∧ build_url (config_with_url "https://x.edu/api/v1/") "courses"
      = "https://x.edu/api/v1/courses"
    ∧ build_url (config_with_url "https://x.edu/api/v1") "courses/"
      = "https://x.edu/api/v1/courses/"
    ∧ build_url (config_with_url "https://x.edu/api/v1/") "courses/"
      = "https://x.edu/api/v1/courses/"
    ∧ (∀ url path, build_url (config_with_url (url ++ "/")) path
        = build_url (config_with_url url) path)
    ∧ (∀ cfg path, build_url cfg ("/" ++ path) = build_url cfg path) := by
  refine ⟨by decide, by decide, by decide, by decide, by decide, by decide,
    fun url path => ?_, fun cfg path => ?_⟩
  · unfold build_url
    rw [show (config_with_url (url ++ "/")).api_url = url ++ "/" from rfl,
      show (config_with_url url).api_url = url from rfl, trim_end_slashes_slash]
  · unfold build_url
    rw [trim_start_slashes_slash]

/-- C5: base-URL normalization is idempotent; `https://x.edu` and
`https://x.edu/` normalize to `https://x.edu/api/v1`, `https://x.edu/api/v1`
is left unchanged; a URL already ending in `/api/v1` is unchanged, one ending
in `/` gets `api/v1` appended without a duplicate slash, and any other URL
gets `/api/v1` appended. -/
theorem normalize_api_url_idempotent :
    (∀ u, normalize_api_url (normalize_api_url u) = normalize_api_url u)
    ∧ normalize_api_url "https://x.edu" = "https://x.edu/api/v1"
    ∧ normalize_api_url "https://x.edu/" = "https://x.edu/api/v1"
    ∧ normalize_api_url "https://x.edu/api/v1" = "https://x.edu/api/v1"
    ∧ (∀ u, ends_with u "/api/v1" = true → normalize_api_url u = u)
    ∧ (∀ u, ends_with u "/api/v1" = false → ends_with u "/" = true →
        normalize_api_url u = u ++ "api/v1")
    ∧ (∀ u, ends_with u "/api/v1" = false → ends_with u "/" = false →
        normalize_api_url u = u ++ "/api/v1") := by
  refine ⟨fun u => normalize_api_url_of_ends _ (normalize_api_url_ends u),
    by decide, by decide, by decide,
    fun u h => normalize_api_url_of_ends u h,
    fun u h1 h2 => ?_, fun u h1 h2 => ?_⟩
  · unfold normalize_api_url
    rw [if_neg (by simp [h1]), if_pos h2]
  · unfold normalize_api_url
    rw [if_neg (by simp [h1]), if_neg (by simp [h2])]

/-- C5 witness: the slash-ending branch at a concrete URL. -/
theorem normalize_api_url_idempotent_witness :
    normalize_api_url "https://x.edu/" = "https://x.edu/" ++ "api/v1" :=
  normalize_api_url_idempotent.2.2.2.2.2.1 "https://x.edu/" (by decide) (by decide)

/-- C6 counterexample: `CanvasConfig::new` performs no scheme validation, so
direct construction from `ftp://x.edu` yields a configuration whose
`api_url` starts with neither `http://` nor `https://`. -/
theorem config_new_scheme_counterexample :
    (CanvasConfig.new "t" "ftp://x.edu").api_url = "ftp://x.edu/api/v1"
    ∧ starts_with (CanvasConfig.new "t" "ftp://x.edu").api_url "http://" = false
    ∧ starts_with (CanvasConfig.new "t" "ftp://x.edu").api_url "https://" = false := by
  refine ⟨by decide, by decide, by decide⟩

/-- C6 (amended): every configuration produced by `CanvasConfig::from_env`
has an `api_url` that starts with `http://` or `https://` and ends with
`/api/v1`; a configuration from `CanvasConfig::new` always ends with
`/api/v1`, but starts with `http://`/`https://` only when the URL given to it
does — `new` performs no scheme validation. -/
theorem config_base_url_invariant (env : String → Option String)
    (cfg : CanvasConfig) (h : CanvasConfig.from_env env = Except.ok cfg) :
    (starts_with cfg.api_url "http://" = true
      ∨ starts_with cfg.api_url "https://" = true)
    ∧ ends_with cfg.api_url "/api/v1" = true
    ∧ (∀ tok url, ends_with (CanvasConfig.new tok url).api_url "/api/v1" = true)
    ∧ (∀ tok url, starts_with url "http://" = true →
        starts_with (CanvasConfig.new tok url).api_url "http://" = true)
    ∧ (∀ tok url, starts_with url "https://" = true →
        starts_with (CanvasConfig.new tok url).api_url "https://" = true) := by
  have hmain : (starts_with cfg.api_url "http://" = true
      ∨ starts_with cfg.api_url "https://" = true)
      ∧ ends_with cfg.api_url "/api/v1" = true := by
    unfold CanvasConfig.from_env at h
    cases htok : env "CANVAS_API_TOKEN" with
    | none => rw [htok] at h; simp at h
    | some tok =>
      rw [htok] at h
      dsimp only at h
      cases hurl : env "CANVAS_API_URL" with
      | none => rw [hurl] at h; simp at h
      | some url =>
        rw [hurl] at h
        dsimp only at h
        cases hb : starts_with url "http://" || starts_with url "https://" with
        | false => rw [hb, if_pos (by decide)] at h; simp at h
        | true =>
          rw [hb, if_neg (by decide)] at h
          injection h with h2
          subst h2
          constructor
          · rcases Bool.or_eq_true_iff.mp hb with h1 | h1
            · exact Or.inl (normalize_api_url_starts _ _ h1)
            · exact Or.inr (normalize_api_url_starts _ _ h1)
          · exact normalize_api_url_ends url
  refine ⟨hmain.1, hmain.2, fun tok url => normalize_api_url_ends url,
    fun tok url h1 => normalize_api_url_starts _ _ h1,
    fun tok url h1 => normalize_api_url_starts _ _ h1⟩

/-- An example process environment for the configuration loader. -/
def sample_env : String → Option String :=
  fun k => if k = "CANVAS_API_TOKEN" then some "t"
    else if k = "CANVAS_API_URL" then some "https://x.edu" else none

/-- C6 witness: a configuration loaded from a concrete environment satisfies
the invariant. -/
theorem config_base_url_invariant_witness :
    starts_with (CanvasConfig.mk "t" "https://x.edu/api/v1" none none false false).api_url
        "http://" = true
    ∨ starts_with (CanvasConfig.mk "t" "https://x.edu/api/v1" none none false false).api_url
        "https://" = true :=
  (config_base_url_invariant sample_env
    (CanvasConfig.mk "t" "https://x.edu/api/v1" none none false false) (by rfl)).1

/-- C1: for every non-2xx response (through the typed methods'
`handle_response` and through `request`), the classified error's kind is
determined by the status alone: 401 and 403 yield `Auth` (403 with a
`Forbidden: ` prefix on the message), 404 yields `NotFound`, 429 yields
`RateLimit`, and every other non-2xx status yields `Api` carrying that exact
status; the mapping is a total function of the status. -/
theorem error_status_mapping (status : Nat) (bodyResult : Except Unit String)
    (h : is_success status = false) :
    (error_from_response status bodyResult).kind =
      (if status = 401 then ErrorKind.auth
       else if status = 403 then ErrorKind.auth
       else if status = 404 then ErrorKind.notFound
       else if status = 429 then ErrorKind.rateLimit
       else ErrorKind.api status)
    ∧ (status = 403 →
        error_from_response status bodyResult =
          CanvasError.Auth ("Forbidden: " ++ extract_message status bodyResult))
    ∧ (∀ resp : HttpResponse, resp.status = status → resp.body = bodyResult →
        request resp = Except.error (error_from_response status bodyResult))
    ∧ (∀ (α : Type) (decode : String → Except String α) (resp : HttpResponse),
        resp.status = status → resp.body = bodyResult →
        handle_response decode resp =
          Except.error (error_from_response status bodyResult)) := by
  refine ⟨?_, ?_, ?_, ?_⟩
  · simp only [error_from_response]
    split_ifs <;> simp [CanvasError.kind]
  · intro h403
    subst h403
    rfl
  · intro resp h1 h2
    unfold request
    rw [h1, h2, if_neg (by simp [h])]
  · intro α decode resp h1 h2
    unfold handle_response
    rw [h1, h2, if_neg (by simp [h])]

/-- C1 witness: an unmapped status maps to `Api` carrying it. -/
theorem error_status_mapping_witness :
    (error_from_response 500 (Except.ok "oops")).kind = ErrorKind.api 500 := by
  have h := (error_status_mapping 500 (Except.ok "oops") (by decide)).1
  rw [h]
  decide

/-- C2: a 2xx response whose body fails the caller's typed JSON decoding
yields an `Internal` error carrying the parse error and the first (at most)
200 characters of the raw body; the result is an error, not a default value,
and is the same for every 2xx status. -/
theorem decode_failure_internal {α : Type} (decode : String → Except String α)
    (status : Nat) (text e : String)
    (hs : is_success status = true) (hd : decode text = Except.error e) :
    handle_response decode ⟨status, Except.ok text⟩ =
      Except.error (CanvasError.Internal
        ("Failed to parse Canvas API response: " ++ e ++ ". Response: " ++
          take_chars 200 text))
    ∧ (take_chars 200 text).length ≤ 200
    ∧ (∀ status2, is_success status2 = true →
        handle_response decode ⟨status2, Except.ok text⟩ =
          handle_response decode ⟨status, Except.ok text⟩) := by
  refine ⟨?_, ?_, ?_⟩
  · unfold handle_response
    rw [if_pos (show is_success (HttpResponse.mk status (Except.ok text)).status = true from hs)]
    dsimp only
    rw [hd]
  · show (text.data.take 200).length ≤ 200
    rw [List.length_take]
    omega
  · intro status2 h2
    unfold handle_response
    rw [if_pos (show is_success (HttpResponse.mk status2 (Except.ok text)).status = true from h2),
      if_pos (show is_success (HttpResponse.mk status (Except.ok text)).status = true from hs)]

/-- C2 witness: a concrete failing decoder on a 200 response. -/
theorem decode_failure_internal_witness :
    handle_response
      (fun s => if s = "42" then Except.ok (42 : Nat) else Except.error "invalid digit")
      ⟨200, Except.ok "oops"⟩ =
      Except.error (CanvasError.Internal
        ("Failed to parse Canvas API response: " ++ "invalid digit" ++
          ". Response: " ++ take_chars 200 "oops")) :=
  (decode_failure_internal
    (fun s => if s = "42" then Except.ok (42 : Nat) else Except.error "invalid digit")
    200 "oops" "invalid digit" (by decide) (by rfl)).1

/-- C3: the message attached to a non-2xx classified error follows the
fallback chain of `error_from_response`: a JSON body's string `message`
field, else its string `error` field, else the raw body (also when the body
is not JSON); an unreadable body falls back to the status's canonical reason
phrase.  Concretely, body `\x7b"error": "token expired"\x7d` yields exactly
`token expired`, and the non-JSON body `plain text failure` yields itself. -/
theorem error_message_extraction (status : Nat) :
    extract_message status (Except.ok "\x7b\"error\": \"token expired\"\x7d")
      = "token expired"
    ∧ extract_message status (Except.ok "plain text failure") = "plain text failure"
    ∧ (∀ body fields s, parse_json body = some (Json.obj fields) →
        lookup_field fields "message" = some (Json.str s) →
        extract_message status (Except.ok body) = s)
    ∧ (∀ body fields s, parse_json body = some (Json.obj fields) →
        lookup_field fields "message" = none →
        lookup_field fields "error" = some (Json.str s) →
        extract_message status (Except.ok body) = s)
    ∧ (∀ body fields, parse_json body = some (Json.obj fields) →
        lookup_field fields "message" = none →
        lookup_field fields "error" = none →
        extract_message status (Except.ok body) = body)
    ∧ (∀ body, parse_json body = none →
        extract_message status (Except.ok body) = body)
    ∧ extract_message status (Except.error ())
        = (canonical_reason status).getD "Unknown error" := by
  refine ⟨rfl, rfl, ?_, ?_, ?_, ?_, rfl⟩
  · intro body fields s hp hm
    simp [extract_message, hp, Json.get, hm, Option.orElse, Json.as_str]
  · intro body fields s hp hm he
    simp [extract_message, hp, Json.get, hm, he, Option.orElse, Json.as_str]
  · intro body fields hp hm he
    simp [extract_message, hp, Json.get, hm, he, Option.orElse]
  · intro body hp
    simp [extract_message, hp]

/-- C3 witness: the `error`-field fallback at a concrete body. -/
theorem error_message_extraction_witness :
    extract_message 500 (Except.ok "\x7b\"error\": \"token expired\"\x7d")
      = "token expired" :=
  (error_message_extraction 500).2.2.2.1 "\x7b\"error\": \"token expired\"\x7d"
    [("error", Json.str "token expired")] "token expired" rfl rfl rfl

/-- C7: `get_info` is a function of the configuration alone — two calls with
the same configuration return identical content — and that content is the
fixed protocol version, tool support enabled, the fixed server name and
version, and the instructions string interpolating the institution name (or
the `Not specified` placeholder when none is configured) and the API base
URL. -/
theorem get_info_deterministic (cfg : CanvasConfig) :
    get_info cfg = get_info cfg
    ∧ (get_info cfg).protocol_version = "2024-11-05"
    ∧ (get_info cfg).capabilities.tools_enabled = true
    ∧ (get_info cfg).server_info.name = "rust-canvas-mcp"
    ∧ (get_info cfg).server_info.version = CARGO_PKG_VERSION
    ∧ (get_info cfg).instructions = some
        ("Canvas LMS MCP Server\nInstitution: " ++
          (cfg.institution_name.getD "Not specified") ++
          "\nAPI URL: " ++ cfg.api_url ++
          "\n\nThis server provides tools for interacting with Canvas LMS.\n" ++
          "Core tools will be implemented in Phase 3.")
    ∧ (cfg.institution_name = none →
        (get_info cfg).instructions = some
          ("Canvas LMS MCP Server\nInstitution: " ++ "Not specified" ++
            "\nAPI URL: " ++ cfg.api_url ++
            "\n\nThis server provides tools for interacting with Canvas LMS.\n" ++
            "Core tools will be implemented in Phase 3.")) := by
  refine ⟨rfl, rfl, rfl, rfl, rfl, rfl, ?_⟩
  intro h
  show some _ = some _
  rw [h, Option.getD_none]

/-- C7 witness: the placeholder case at a concrete configuration. -/
theorem get_info_deterministic_witness :
    (get_info (CanvasConfig.new "t" "https://x.edu")).instructions = some
      ("Canvas LMS MCP Server\nInstitution: " ++ "Not specified" ++
        "\nAPI URL: " ++ (CanvasConfig.new "t" "https://x.edu").api_url ++
        "\n\nThis server provides tools for interacting with Canvas LMS.\n" ++
        "Core tools will be implemented in Phase 3.") :=
  (get_info_deterministic (CanvasConfig.new "t" "https://x.edu")).2.2.2.2.2.2 rfl

/-- C8: client construction fails — with a `Config`-classified error —
exactly when the authorization header value `Bearer ` + token is not a valid
HTTP header value; on success the client stores that very value (computed
once from the configuration) as its default authorization header. -/
theorem client_new_auth_header (cfg : CanvasConfig) :
    ((∃ c, CanvasClient.new cfg = Except.ok c) ↔
      header_value_is_valid ("Bearer " ++ cfg.api_token) = true)
    ∧ (header_value_is_valid ("Bearer " ++ cfg.api_token) = false →
        CanvasClient.new cfg = Except.error (CanvasError.Config
          ("Invalid API token: " ++ "failed to parse header value")))
    ∧ (∀ c, CanvasClient.new cfg = Except.ok c →
        c.auth_header = "Bearer " ++ cfg.api_token ∧ c.config = cfg) := by
  unfold CanvasClient.new
  cases hv : header_value_is_valid ("Bearer " ++ cfg.api_token) with
  | true =>
    rw [if_pos hv]
    refine ⟨⟨fun _ => rfl, fun _ => ⟨_, rfl⟩⟩, fun hfalse => by simp [hv] at hfalse, ?_⟩
    intro c hc
    injection hc with hc2
    rw [← hc2]
    exact ⟨rfl, rfl⟩
  | false =>
    rw [if_neg (by simp [hv])]
    refine ⟨⟨fun hex => ?_, fun htrue => by simp [hv] at htrue⟩, fun _ => rfl, ?_⟩
    · obtain ⟨c, hc⟩ := hex
      exact absurd hc (by simp)
    · intro c hc
      exact absurd hc (by simp)

/-- C8 witness: a valid token yields a client carrying the bearer header. -/
theorem client_new_auth_header_witness :
    (CanvasClientModel.mk (CanvasConfig.new "tok" "https://x.edu")
        "Bearer tok" "rust-canvas-mcp/0.1.0").auth_header = "Bearer " ++ "tok"
    ∧ (CanvasClientModel.mk (CanvasConfig.new "tok" "https://x.edu")
        "Bearer tok" "rust-canvas-mcp/0.1.0").config = CanvasConfig.new "tok" "https://x.edu" :=
  (client_new_auth_header (CanvasConfig.new "tok" "https://x.edu")).2.2
    (CanvasClientModel.mk (CanvasConfig.new "tok" "https://x.edu")
      "Bearer tok" "rust-canvas-mcp/0.1.0") (by rfl)

/-- C9: when a non-2xx body is valid JSON whose `message` field holds a
non-string value, the extracted message is the entire raw body — the `error`
field is never consulted, because the fallback to `error` fires only when the
`message` key is absent. -/
theorem nonstring_message_field_uses_body (status : Nat) (body : String)
    (fields : List (String × Json)) (v : Json)
    (hp : parse_json body = some (Json.obj fields))
    (hm : lookup_field fields "message" = some v)
    (hs : v.as_str = none) :
    extract_message status (Except.ok body) = body := by
  simp [extract_message, hp, Json.get, hm, Option.orElse, hs]

/-- C9 witness: a numeric `message` next to a string `error` still yields the
raw body. -/
theorem nonstring_message_field_uses_body_witness :
    extract_message 500 (Except.ok "\x7b\"message\": 42, \"error\": \"x\"\x7d")
      = "\x7b\"message\": 42, \"error\": \"x\"\x7d" :=
  nonstring_message_field_uses_body 500 "\x7b\"message\": 42, \"error\": \"x\"\x7d"
    [("message", Json.num "42"), ("error", Json.str "x")] (Json.num "42") rfl rfl rfl

/-- C10: a 429 response is classified as `RateLimit` with message
`Rate limit exceeded: ` followed by the extracted body message (as 403 gets
the `Forbidden: ` prefix), and a prefixed message is never byte-equal to the
body-derived message. -/
theorem rate_limit_message_prefixed (bodyResult : Except Unit String) :
    error_from_response 429 bodyResult =
      CanvasError.RateLimit ("Rate limit exceeded: " ++ extract_message 429 bodyResult)
    ∧ (∀ m : String, "Rate limit exceeded: " ++ m ≠ m)
    ∧ error_from_response 403 bodyResult =
      CanvasError.Auth ("Forbidden: " ++ extract_message 403 bodyResult) := by
  refine ⟨rfl, ?_, rfl⟩
  intro m hm
  have h := congrArg String.length hm
  rw [String.length_append] at h
  have hlen : ("Rate limit exceeded: " : String).length = 21 := rfl
  rw [hlen] at h
  omega

/-- C10 witness: the prefixed message differs from the body message at a
concrete input. -/
theorem rate_limit_message_prefixed_witness :
    "Rate limit exceeded: " ++ "quota" ≠ "quota" :=
  (rate_limit_message_prefixed (Except.ok "quota")).2.1 "quota"

end CanvasMcp
